import Mathlib

/-!
Shallow embedding of the CRUD reconciliation logic of the
terraform-provider-ciscosecureaccess repository.

The provider translates Terraform plan/state records into REST calls against
the Cisco Secure Access API.  The embedding models, per resource, the pure
decision logic of each Create/Read/Update/Delete handler: which HTTP calls
are emitted, how failing HTTP responses are classified (retry versus
unrecoverable), how 404 responses are treated, and how the resulting
Terraform state is produced.  HTTP responses are inputs to the model; the
retry-go loops become an explicit bounded runner over a list of attempt
outcomes.
-/

namespace SecureAccess

/-- An HTTP response as the handlers observe it: a status code and the
response body read via io.ReadAll.  (In net/http the body reader is never
nil on a non-nil response, so the body is modelled as a plain string.) -/
structure HTTPResp where
  status : Nat
  body : String
  deriving DecidableEq, Repr

/-- The pair (httpRes, err) returned by a generated-client Execute() call:
the response may be nil, and err is non-nil exactly when the Bool is true. -/
structure APIResult where
  httpRes : Option HTTPResp
  err : Bool
  deriving DecidableEq, Repr

/-- substring containment over char lists: models Go strings.Contains. -/
def listContainsInfix (pat : List Char) : List Char → Bool
  | [] => pat.isEmpty
  | c :: cs => pat.isPrefixOf (c :: cs) || listContainsInfix pat cs

/-- strings.Contains(s, pat). -/
def strContains (s pat : String) : Bool :=
  listContainsInfix pat.data s.data

/-- Classification of one attempt inside a retry.Do loop:
the closure returned nil (done), a retryable error, or retry.Unrecoverable. -/
inductive StepResult where
  | done
  | retryable
  | unrecoverable
  deriving DecidableEq, Repr

/-- Overall outcome of retry.Do. -/
inductive RetryResult where
  | ok
  | unrecoverableErr
  | exhausted
  | noResponse
  deriving DecidableEq, Repr

/-- retry.Do with an attempt budget: consume responses in order; stop at the
first success or unrecoverable error; a retryable error consumes one attempt
and continues while budget remains.  Running out of modelled responses while
budget remains is noResponse (the real loop would make a further HTTP call). -/
def runRetry {α : Type} (step : α → StepResult) : Nat → List α → RetryResult
  | _, [] => .noResponse
  | 0, _ => .exhausted
  | n + 1, a :: rest =>
    match step a with
    | .done => .ok
    | .unrecoverable => .unrecoverableErr
    | .retryable => if n == 0 then .exhausted else runRetry step n rest

/-- Body marker that makes a 400 retryable in the access-policy Create loop
(resource_access_policy.go, Create). -/
def apRetryMarker : String := "invalid data passed. the ID's provided for"

/-- One attempt of the access-policy Create retry loop
(accessPolicyResource.Create): on error, a non-nil response with
(status 400 and the marker in the body) or status 409 is retryable; every
other error (including a nil response) adds an error diagnostic and is
wrapped in retry.Unrecoverable; on success the state is set. -/
def apCreateStep (a : APIResult) : StepResult :=
  if a.err then
    match a.httpRes with
    | some r =>
      if (r.status == 400 && strContains r.body apRetryMarker) || r.status == 409 then
        .retryable
      else
        .unrecoverable
    | none => .unrecoverable
  else .done

/-- One attempt of the private-resource Create retry loop
(createPrivateResourceWithRetry): on error, status 409 (conflict) or
429 (too many requests) is retryable; every other status is
retry.Unrecoverable.  The code dereferences httpRes unconditionally here,
so the response is a plain HTTPResp. -/
def prCreateStep : Bool × HTTPResp → StepResult
  | (err, r) =>
    if err then
      if r.status == 409 || r.status == 429 then .retryable else .unrecoverable
    else .done

/-- Access-policy Create (retry.Attempts(6)): Create surfaces an error
diagnostic exactly when the retry loop does not end in success. -/
def apCreate (attempts : List APIResult) : RetryResult × Bool :=
  let res := runRetry apCreateStep 6 attempts
  (res, res != .ok)

/-- Private-resource Create (retry.Attempts(3) = retryMaxAttempts): Create
adds an error diagnostic exactly when createPrivateResourceWithRetry
returns an error. -/
def prCreate (attempts : List (Bool × HTTPResp)) : RetryResult × Bool :=
  let res := runRetry prCreateStep 3 attempts
  (res, res != .ok)

/-! ## Read handlers: effect of the HTTP response on Terraform state -/

/-- What a Read handler does with the result of its GET call: remove the
resource from Terraform state, add an error diagnostic, or populate state
from the response. -/
inductive ReadEffect where
  | removeFromState
  | errorDiag
  | setState
  deriving DecidableEq, Repr

/-- accessPolicyResource.Read: a non-nil response with status 404 removes
the resource from state and returns (no diagnostic); otherwise any error is
surfaced; otherwise state is populated from the response. -/
def apReadEff (a : APIResult) : ReadEffect :=
  match a.httpRes with
  | some r =>
    if r.status == 404 then .removeFromState
    else if a.err then .errorDiag
    else .setState
  | none => if a.err then .errorDiag else .setState

/-- networkTunnelGroupResource.Read: same 404 branching as the access
policy (non-nil response with status 404 removes from state). -/
def ntgReadEff (a : APIResult) : ReadEffect :=
  match a.httpRes with
  | some r =>
    if r.status == 404 then .removeFromState
    else if a.err then .errorDiag
    else .setState
  | none => if a.err then .errorDiag else .setState

/-- privateResourceResource.Read: only inside the err branch, a non-nil
response with status 404 (privateResourceHTTPNotFound) removes the resource
from state; other errors are surfaced; success populates state. -/
def prReadEff (a : APIResult) : ReadEffect :=
  if a.err then
    match a.httpRes with
    | some r => if r.status == 404 then .removeFromState else .errorDiag
    | none => .errorDiag
  else .setState

/-- Body marker the destination-list Read looks for to detect a not-found
destination list (destinationListNotFoundError). -/
def dlNotFoundMarker : String := "\"statusCode\":404,\"error\":\"Not Found\""

/-- destinationListResource.Read: on error, the handler inspects the
response BODY, not the status code: if the body contains the
destinationListNotFoundError marker the resource is removed from state,
otherwise the error is surfaced.  (The body-nil branch of the source is
dead code: net/http never returns a nil body on a non-nil response.) -/
def dlReadEff (err : Bool) (r : HTTPResp) : ReadEffect :=
  if err then
    if strContains r.body dlNotFoundMarker then .removeFromState else .errorDiag
  else .setState

/-- One attempt of the resourceConnectorAgentResource.Read retry loop:
status 404 removes from state and ends the loop successfully; 429 is
retryable; otherwise an error is unrecoverable and success populates state. -/
inductive ConnReadStep where
  | removed
  | retryable
  | unrecoverable
  | ok
  deriving DecidableEq, Repr

/-- Classification of one connector-agent Read attempt (the 200 case and the
default case of the switch both fall through to the same err check). -/
def connReadStep (a : APIResult) : ConnReadStep :=
  match a.httpRes with
  | some r =>
    if r.status == 404 then .removed
    else if r.status == 429 then .retryable
    else if a.err then .unrecoverable
    else .ok
  | none => if a.err then .unrecoverable else .ok

/-- Overall result of the connector-agent Read retry loop. -/
inductive ConnReadResult where
  | removed
  | stateSet
  | errorDiag
  | noResponse
  deriving DecidableEq, Repr

/-- The connector-agent Read loop (retry.Attempts(connectorRetryMaxAttempts)
with budget passed explicitly): removal and success end the loop without a
diagnostic; unrecoverable errors and exhaustion surface a diagnostic. -/
def runConnRead : Nat → List APIResult → ConnReadResult
  | _, [] => .noResponse
  | 0, _ => .errorDiag
  | n + 1, a :: rest =>
    match connReadStep a with
    | .removed => .removed
    | .ok => .stateSet
    | .unrecoverable => .errorDiag
    | .retryable => if n == 0 then .errorDiag else runConnRead n rest

/-- globalSettingsResource.Read, whose API access is FetchState
(resource_global_settings.go): FetchState branches only on whether
GetPolicySettings returned an error - it never looks at the status code -
so ANY failing response, a 404 included, is surfaced as an error
diagnostic, and this Read never removes the resource from state. -/
def gsReadEff (a : APIResult) : ReadEffect :=
  if a.err then .errorDiag else .setState

/-! ## Delete handlers: treatment of 404 -/

/-- What a Delete handler reports: success (no diagnostic) or an error
diagnostic. -/
inductive DeleteEffect where
  | success
  | errorDiag
  deriving DecidableEq, Repr

/-- One attempt of accessPolicyResource.Delete's retry loop: a non-nil 404
response means the resource is already gone (success); an error with a 409
response is retried; any other error is unrecoverable; otherwise success. -/
def apDeleteStep (a : APIResult) : StepResult :=
  match a.httpRes with
  | some r =>
    if r.status == 404 then .done
    else if a.err && r.status == 409 then .retryable
    else if a.err then .unrecoverable
    else .done
  | none => if a.err then .unrecoverable else .done

/-- privateResourceResource.Delete: status 404 returns success immediately;
otherwise an error is surfaced; otherwise success.  (The handler
dereferences httpRes unconditionally, so the response is non-optional.) -/
def prDeleteEff (err : Bool) (r : HTTPResp) : DeleteEffect :=
  if r.status == 404 then .success
  else if err then .errorDiag
  else .success

/-- networkTunnelGroupResource.Delete: a non-nil 404 response returns
success immediately; otherwise an error is surfaced; otherwise success. -/
def ntgDeleteEff (a : APIResult) : DeleteEffect :=
  match a.httpRes with
  | some r =>
    if r.status == 404 then .success
    else if a.err then .errorDiag
    else .success
  | none => if a.err then .errorDiag else .success

/-- destinationListResource.Delete: status 404 (httpStatusNotFound) returns
success immediately; otherwise an error is surfaced; otherwise success. -/
def dlDeleteEff (err : Bool) (r : HTTPResp) : DeleteEffect :=
  if r.status == 404 then .success
  else if err then .errorDiag
  else .success

/-- One attempt of resourceConnectorAgentResource.Delete's retry loop:
429 is retried, 404 means already deleted (success), any other error is
unrecoverable, otherwise success. -/
def connDeleteStep (a : APIResult) : StepResult :=
  match a.httpRes with
  | some r =>
    if r.status == 429 then .retryable
    else if r.status == 404 then .done
    else if a.err then .unrecoverable
    else .done
  | none => if a.err then .unrecoverable else .done

/-! ## Access policy: model, hasChanges, Update -/

/-- accessPolicyResourceModel.  Set-typed attributes (types.Set) are
modelled as Finsets, since types.Set.Equal on known sets is
order-insensitive element equality; string/bool/int attributes carry their
known values; client_posture_profile_id is nullable (the code calls IsNull
on it). -/
structure APModel where
  id : Int
  name : String
  action : String
  privateResourceIds : Finset Int
  destinationListIds : Finset Int
  description : String
  enabled : Bool
  logLevel : String
  priority : Int
  clientPostureProfileId : Option Int
  sourceIds : Finset Int
  sourceTypes : Finset String
  privateDestinationTypes : Finset String
  publicDestinationTypes : Finset String
  trafficType : String
  deriving DecidableEq

/-- hasChanges (resource_access_policy.go): disjunction of inequality over
exactly thirteen fields - the Action (and ID) fields are not compared. -/
def hasChanges (plan state : APModel) : Bool :=
  plan.name != state.name ||
  plan.description != state.description ||
  plan.enabled != state.enabled ||
  plan.priority != state.priority ||
  plan.sourceIds != state.sourceIds ||
  plan.sourceTypes != state.sourceTypes ||
  plan.privateDestinationTypes != state.privateDestinationTypes ||
  plan.publicDestinationTypes != state.publicDestinationTypes ||
  plan.privateResourceIds != state.privateResourceIds ||
  plan.destinationListIds != state.destinationListIds ||
  plan.logLevel != state.logLevel ||
  plan.clientPostureProfileId != state.clientPostureProfileId ||
  plan.trafficType != state.trafficType

/-- Result of an Update handler: the PUT call issued (None when no call is
made; the payload is built from the plan, carried here as the rule id and
the plan it is formatted from), the Terraform state written (None when the
handler returned early on an API error), and whether an error diagnostic
was added. -/
structure UpdateResult (β : Type) where
  putCall : Option β
  newState : Option β
  errorDiag : Bool
  deriving DecidableEq

/-- accessPolicyResource.Update: if hasChanges, a PutRule call is issued
with a payload formatted from the plan (on API error the handler returns
with a diagnostic and without setting state); in every case where the
handler reaches the end, the state written is the plan itself. -/
def apUpdate (plan state : APModel) (apiErr : Bool) : UpdateResult APModel :=
  if hasChanges plan state then
    if apiErr then ⟨some plan, none, true⟩
    else ⟨some plan, some plan, false⟩
  else ⟨none, some plan, false⟩

/-! ## Private resource: model, hasResourceChanges, Update -/

/-- trafficSelectorModel: a protocol/ports pair. -/
structure TrafficSelector where
  ports : String
  protocol : String
  deriving DecidableEq

/-- addressTypesModel: one set of addresses with its traffic selectors. -/
structure AddressEntry where
  addresses : Finset String
  trafficSelector : Finset TrafficSelector
  deriving DecidableEq

/-- privateResourceResourceModel. -/
structure PRModel where
  id : String
  name : String
  accessTypes : Finset String
  addresses : Finset AddressEntry
  description : String
  clientReachableAddresses : Option (Finset String)
  certificateId : Option Int
  deriving DecidableEq

/-- hasResourceChanges (resource_private_resource.go): compares exactly
name, description, access_types, addresses and certificate_id. -/
def hasResourceChanges (plan state : PRModel) : Bool :=
  plan.name != state.name ||
  plan.description != state.description ||
  plan.accessTypes != state.accessTypes ||
  plan.addresses != state.addresses ||
  plan.certificateId != state.certificateId

/-- privateResourceResource.Update: a PutPrivateResource call is issued only
when hasResourceChanges; on API error the handler returns with a diagnostic
(without setting state); otherwise the state written is the plan. -/
def prUpdate (plan state : PRModel) (apiErr : Bool) : UpdateResult PRModel :=
  if hasResourceChanges plan state then
    if apiErr then ⟨some plan, none, true⟩
    else ⟨some plan, some plan, false⟩
  else ⟨none, some plan, false⟩

/-! ## Network tunnel group: model, set-comparison, Update patches -/

/-- ntgResourceModel (hub attributes are computed-only and never consulted
by Update; the identifier-prefix and region attributes are
RequiresReplace and likewise never patched). -/
structure NTGModel where
  id : Int
  networkCidrs : List String
  name : String
  region : String
  presharedKey : String
  deviceType : String
  deriving DecidableEq

/-- compareStringSlicesAsSets (resource_ntg.go): false when lengths differ,
otherwise true iff every element of a occurs somewhere in b. -/
def compareStringSlicesAsSets (a b : List String) : Bool :=
  if a.length != b.length then false
  else a.all (fun x => b.any (fun y => x == y))

/-- The value carried by one JSON-patch operation. -/
inductive PatchValue where
  | str (s : String)
  | routing (cidrs : List String)
  deriving DecidableEq

/-- One PatchNetworkTunnelGroupRequestInner: an op, a path and a value. -/
structure PatchOp where
  op : String
  path : String
  value : PatchValue
  deriving DecidableEq

/-- networkTunnelGroupResource.Update, patch construction: a replace of
/name when the names differ, a replace of /passphrase when the preshared
keys differ, and a replace of /routing when
compareStringSlicesAsSets(state.NetworkCidrs, plan.NetworkCidrs) is false. -/
def ntgPatchOps (plan state : NTGModel) : List PatchOp :=
  (if plan.name == state.name then []
   else [⟨"replace", "/name", .str plan.name⟩]) ++
  (if plan.presharedKey == state.presharedKey then []
   else [⟨"replace", "/passphrase", .str plan.presharedKey⟩]) ++
  (if compareStringSlicesAsSets state.networkCidrs plan.networkCidrs then []
   else [⟨"replace", "/routing", .routing plan.networkCidrs⟩])

/-- networkTunnelGroupResource.Update: the PATCH call is issued only when at
least one patch operation was produced. -/
def ntgUpdateCall (plan state : NTGModel) : Option (List PatchOp) :=
  let ops := ntgPatchOps plan state
  if ops.isEmpty then none else some ops

/-! ## Destination list: model and Update reconciliation -/

/-- destinationModel: a destination entry (its API id is a string). -/
structure DLDest where
  id : String
  destination : String
  comment : String
  type : String
  deriving DecidableEq

/-- destinationListResourceModel. -/
structure DLModel where
  id : Int
  name : String
  destinations : List DLDest
  deriving DecidableEq

/-- A DestinationCreateObject: the destination string and its comment (the
create API has no type field; the backend auto-detects the type). -/
structure DLCreate where
  destination : String
  comment : String
  deriving DecidableEq

/-- The missing-destinations pass of destinationListResource.Update: each
planned destination whose destination string is found nowhere among the
read (observed) destinations becomes a DestinationCreateObject, in plan
order. -/
def missingDestinations (planL readL : List DLDest) : List DLCreate :=
  (planL.filter fun p => !(readL.any fun q => q.destination == p.destination)).map
    fun p => ⟨p.destination, p.comment⟩

/-- The extraneous-destinations pass of destinationListResource.Update: each
observed destination whose destination string is found nowhere among the
planned destinations is scheduled for removal. -/
def extraDestinations (readL planL : List DLDest) : List DLDest :=
  readL.filter fun q => !(planL.any fun p => q.destination == p.destination)

/-- Digits of a base-10 numeral, accumulated left to right; fails on the
first non-digit character. -/
def parseDecAux : List Char → Nat → Option Nat
  | [], acc => some acc
  | c :: cs, acc =>
    if c.isDigit then parseDecAux cs (acc * 10 + (c.toNat - 48)) else none

/-- strconv.ParseInt(s, 10, 64): an optional sign followed by at least one
decimal digit.  (The 64-bit range check is not modelled; the ids in play
are small.) -/
def parseId (s : String) : Option Int :=
  match s.data with
  | [] => none
  | '-' :: [] => none
  | '-' :: cs => (parseDecAux cs 0).map fun n => -(n : Int)
  | '+' :: [] => none
  | '+' :: cs => (parseDecAux cs 0).map fun n => (n : Int)
  | cs => (parseDecAux cs 0).map fun n => (n : Int)

/-- strconv.ParseInt applied to each scheduled destination id in order,
failing as the handler does on the first unparsable id. -/
def parseIds : List DLDest → Option (List Int)
  | [] => some []
  | d :: ds =>
    match parseId d.id with
    | none => none
    | some i => (parseIds ds).map fun is => i :: is

/-- The calls emitted by destinationListResource.Update on its success path:
an optional name PATCH, an optional CreateDestinations call, an optional
DeleteDestinations call, and whether the id-conversion error diagnostic was
hit (in which case no delete call is made). -/
structure DLUpdateCalls where
  namePatch : Option String
  createCall : Option (List DLCreate)
  deleteCall : Option (List Int)
  errorDiag : Bool
  deriving DecidableEq

/-- destinationListResource.Update, with readL the destinations returned by
GetDestinations, modelling the call sequence when each issued API call
succeeds: PATCH the name only when it changed; CreateDestinations exactly
when some planned destination is missing; DeleteDestinations exactly when
some observed destination is extraneous (unless an id fails to parse, which
surfaces a diagnostic and stops before the delete call). -/
def dlUpdate (plan state : DLModel) (readL : List DLDest) : DLUpdateCalls :=
  let namePatch := if plan.name == state.name then none else some plan.name
  let missing := missingDestinations plan.destinations readL
  let createCall := if missing.isEmpty then none else some missing
  let extra := extraDestinations readL plan.destinations
  if extra.isEmpty then
    ⟨namePatch, createCall, none, false⟩
  else
    match parseIds extra with
    | none => ⟨namePatch, createCall, none, true⟩
    | some ids => ⟨namePatch, createCall, some ids, false⟩

/-! ## Global settings: Terraform values with unknown, PutState, Delete -/

/-- A Terraform attribute value: unknown, null, or a known value.  The
framework's ValueBool/ValueInt64 return the zero value on unknown and
null. -/
inductive TFVal (α : Type) where
  | unknown
  | null
  | val (a : α)
  deriving DecidableEq

/-- types.Value.IsUnknown(). -/
def TFVal.isUnknown {α : Type} : TFVal α → Bool
  | .unknown => true
  | _ => false

/-- ValueBool / ValueInt64: the underlying value, or the zero value for
unknown and null. -/
def TFVal.valueOr {α : Type} (z : α) : TFVal α → α
  | .val a => a
  | _ => z

/-- globalSettingsResourceModel. -/
structure GSModel where
  enableGlobalDecryption : TFVal Bool
  globalIPSProfileId : TFVal Int
  deriving DecidableEq

/-- One PutPolicySetting write issued by PutState. -/
inductive GSWrite where
  | decryption (b : Bool)
  | ipsProfile (i : Int)
  deriving DecidableEq

/-- First block of globalSettingsResource.PutState: if the planned
enable-global-decryption value is not unknown and its ValueBool differs
from the fetched current one, write it (updating the current model); else
if the planned value is unknown, fill the plan field from the current
value; otherwise leave both alone.  Returns (writes, current, plan). -/
def gsPutDecryption (current plan : GSModel) : List GSWrite × GSModel × GSModel :=
  if !plan.enableGlobalDecryption.isUnknown &&
      plan.enableGlobalDecryption.valueOr false !=
        current.enableGlobalDecryption.valueOr false then
    ([.decryption (plan.enableGlobalDecryption.valueOr false)],
      { current with enableGlobalDecryption := plan.enableGlobalDecryption },
      plan)
  else if plan.enableGlobalDecryption.isUnknown then
    ([], current,
      { plan with enableGlobalDecryption := current.enableGlobalDecryption })
  else
    ([], current, plan)

/-- Second block of globalSettingsResource.PutState: the same branching for
the global IPS profile ID setting, compared with ValueInt64. -/
def gsPutIps (current plan : GSModel) : List GSWrite × GSModel × GSModel :=
  if !plan.globalIPSProfileId.isUnknown &&
      plan.globalIPSProfileId.valueOr 0 !=
        current.globalIPSProfileId.valueOr 0 then
    ([.ipsProfile (plan.globalIPSProfileId.valueOr 0)],
      { current with globalIPSProfileId := plan.globalIPSProfileId },
      plan)
  else if plan.globalIPSProfileId.isUnknown then
    ([], current,
      { plan with globalIPSProfileId := current.globalIPSProfileId })
  else
    ([], current, plan)

/-- globalSettingsResource.PutState on its success path: the decryption
block runs first, then the IPS-profile block on the models it produced.
Returns (writes, final current model, final plan model). -/
def putState (current plan : GSModel) : List GSWrite × GSModel × GSModel :=
  let s1 := gsPutDecryption current plan
  let s2 := gsPutIps s1.2.1 s1.2.2
  (s1.1 ++ s2.1, s2.2.1, s2.2.2)

/-- globalSettingsResource.Delete: reads the prior state (an error there is
the only possible diagnostic) and issues no API call whatsoever; the
settings remain as they were and only the Terraform state entry goes away.
Input none models a failed state read. -/
def gsDelete (stateRead : Option GSModel) : List GSWrite × Bool :=
  match stateRead with
  | none => ([], true)
  | some _ => ([], false)

/-! ## Theorems -/

/-- Claim C1, counterexample: the claim says both Create retry loops retry
exactly on status 409 or 429, but the access-policy Create loop classifies
a failing 429 response as unrecoverable, and retries a 400 response whose
body contains the marker; only the private-resource loop retries on 429. -/
theorem createRetry_claim_false_at_429 :
    apCreateStep ⟨some ⟨429, ""⟩, true⟩ = .unrecoverable ∧
    apCreateStep ⟨some ⟨400, apRetryMarker⟩, true⟩ = .retryable ∧
    prCreateStep (true, ⟨429, ""⟩) = .retryable := by
  decide

/-- Claim C1, amended: the private-resource Create loop retries a failing
response iff its status is 409 or 429; the access-policy Create loop
retries iff the status is 409, or the status is 400 and the body contains
the marker "invalid data passed. the ID's provided for"; every other
failing response is classified unrecoverable, which stops the retry loop
immediately, and any non-success outcome of a Create loop surfaces an
error diagnostic. -/
theorem createRetry_classification :
    (∀ r : HTTPResp, apCreateStep ⟨some r, true⟩ = .retryable ↔
      (r.status = 409 ∨ (r.status = 400 ∧ strContains r.body apRetryMarker = true))) ∧
    (∀ r : HTTPResp, prCreateStep (true, r) = .retryable ↔
      (r.status = 409 ∨ r.status = 429)) ∧
    (∀ r : HTTPResp, apCreateStep ⟨some r, true⟩ = .unrecoverable ↔
      ¬(r.status = 409 ∨ (r.status = 400 ∧ strContains r.body apRetryMarker = true))) ∧
    (∀ r : HTTPResp, prCreateStep (true, r) = .unrecoverable ↔
      ¬(r.status = 409 ∨ r.status = 429)) ∧
    (∀ (r : HTTPResp) (n : Nat) (rest : List APIResult),
      apCreateStep ⟨some r, true⟩ = .unrecoverable →
      runRetry apCreateStep (n + 1) (⟨some r, true⟩ :: rest) = .unrecoverableErr) ∧
    (∀ (r : HTTPResp) (n : Nat) (rest : List (Bool × HTTPResp)),
      prCreateStep (true, r) = .unrecoverable →
      runRetry prCreateStep (n + 1) ((true, r) :: rest) = .unrecoverableErr) ∧
    (∀ attempts : List APIResult,
      (apCreate attempts).2 = true ↔ (apCreate attempts).1 ≠ .ok) ∧
    (∀ attempts : List (Bool × HTTPResp),
      (prCreate attempts).2 = true ↔ (prCreate attempts).1 ≠ .ok) := by
  refine ⟨?_, ?_, ?_, ?_, ?_, ?_, ?_, ?_⟩
  · intro r
    simp only [apCreateStep, if_true]
    split <;> rename_i h <;>
      simp_all [Bool.or_eq_true, Bool.and_eq_true, beq_iff_eq, or_comm]
  · intro r
    simp only [prCreateStep, if_true]
    split <;> rename_i h <;>
      simp_all [Bool.or_eq_true, beq_iff_eq]
  · intro r
    simp only [apCreateStep, if_true]
    split <;> rename_i h <;>
      simp_all [Bool.or_eq_true, Bool.and_eq_true, beq_iff_eq, or_comm]
  · intro r
    simp only [prCreateStep, if_true]
    split <;> rename_i h <;>
      simp_all [Bool.or_eq_true, beq_iff_eq]
  · intro r n rest h
    simp [runRetry, h]
  · intro r n rest h
    simp [runRetry, h]
  · intro attempts
    simp [apCreate]
  · intro attempts
    simp [prCreate]

/-- Claim C1, witness: the retry classification applied at a concrete
failing 500 response in both Create loops. -/
theorem createRetry_classification_witness :
    apCreateStep ⟨some ⟨500, ""⟩, true⟩ = .unrecoverable ∧
    runRetry apCreateStep 6 [⟨some ⟨500, ""⟩, true⟩] = .unrecoverableErr ∧
    prCreateStep (true, ⟨500, ""⟩) = .unrecoverable ∧
    runRetry prCreateStep 3 [(true, ⟨500, ""⟩)] = .unrecoverableErr :=
  ⟨by decide,
   createRetry_classification.2.2.2.2.1 ⟨500, ""⟩ 5 [] (by decide),
   by decide,
   createRetry_classification.2.2.2.2.2.1 ⟨500, ""⟩ 2 [] (by decide)⟩

/-- Membership in the missing-destinations list: exactly the planned
destinations whose destination string occurs nowhere among the observed
ones, paired with their comments. -/
theorem mem_missingDestinations {planL readL : List DLDest} {x : DLCreate} :
    x ∈ missingDestinations planL readL ↔
    ∃ p ∈ planL, p.destination = x.destination ∧ p.comment = x.comment ∧
      ∀ q ∈ readL, q.destination ≠ x.destination := by
  simp only [missingDestinations, List.mem_map, List.mem_filter,
    Bool.not_eq_true', List.any_eq_false, beq_iff_eq]
  constructor
  · rintro ⟨p, ⟨hp, hnone⟩, rfl⟩
    exact ⟨p, hp, rfl, rfl, hnone⟩
  · rintro ⟨p, hp, hdest, hcomm, hnone⟩
    refine ⟨p, ⟨hp, ?_⟩, ?_⟩
    · intro q hq
      rw [hdest]
      exact hnone q hq
    · cases x
      simp_all

/-- Membership in the extraneous-destinations list: exactly the observed
destinations whose destination string occurs nowhere among the planned
ones. -/
theorem mem_extraDestinations {readL planL : List DLDest} {q : DLDest} :
    q ∈ extraDestinations readL planL ↔
    q ∈ readL ∧ ∀ p ∈ planL, q.destination ≠ p.destination := by
  simp only [extraDestinations, List.mem_filter, Bool.not_eq_true',
    List.any_eq_false, beq_iff_eq]

/-- parseIds succeeds with exactly the parses of the listed ids. -/
theorem parseIds_mem {l : List DLDest} {is : List Int} (h : parseIds l = some is)
    (i : Int) : i ∈ is ↔ ∃ d ∈ l, parseId d.id = some i := by
  induction l generalizing is with
  | nil =>
    simp only [parseIds, Option.some.injEq] at h
    subst h
    simp
  | cons d ds ih =>
    simp only [parseIds] at h
    cases hd : parseId d.id with
    | none => rw [hd] at h; simp at h
    | some j =>
      rw [hd] at h
      cases hds : parseIds ds with
      | none => rw [hds] at h; simp at h
      | some js =>
        rw [hds] at h
        have hjs : j :: js = is := by simpa using h
        subst hjs
        constructor
        · intro hmem
          rcases List.mem_cons.mp hmem with rfl | hx
          · exact ⟨d, List.mem_cons_self d ds, hd⟩
          · obtain ⟨e, he, hp⟩ := (ih hds).mp hx
            exact ⟨e, List.mem_cons_of_mem d he, hp⟩
        · rintro ⟨e, he, hp⟩
          rcases List.mem_cons.mp he with rfl | he
          · rw [hd] at hp
            cases hp
            exact List.mem_cons_self _ _
          · exact List.mem_cons_of_mem j ((ih hds).mpr ⟨e, he, hp⟩)

/-- The create call of destination-list Update is the missing-destinations
list when non-empty, and absent otherwise. -/
theorem dlUpdate_createCall (plan state : DLModel) (readL : List DLDest) :
    (dlUpdate plan state readL).createCall =
      if (missingDestinations plan.destinations readL).isEmpty then none
      else some (missingDestinations plan.destinations readL) := by
  simp only [dlUpdate]
  split
  · rfl
  · split <;> rfl

/-- The delete call and error flag of destination-list Update, as a pair:
absent when nothing is extraneous; otherwise the parsed ids, or the
conversion diagnostic when some id does not parse. -/
theorem dlUpdate_deleteCall_errorDiag (plan state : DLModel) (readL : List DLDest) :
    ((dlUpdate plan state readL).deleteCall, (dlUpdate plan state readL).errorDiag) =
      (if (extraDestinations readL plan.destinations).isEmpty then (none, false)
       else
        match parseIds (extraDestinations readL plan.destinations) with
        | none => (none, true)
        | some ids => (some ids, false)) := by
  simp only [dlUpdate]
  split
  · rfl
  · split <;> rfl

/-- Claim C2: Update of the destination-list resource reconciles by set
difference on the destination string: the create call carries exactly the
planned destinations whose string is absent from the observed list, the
delete call carries exactly the parsed ids of observed destinations whose
string is absent from the plan, a destination present in both lists is in
neither call, and when the two string sets are equal no create or delete
call is issued. -/
theorem dlUpdate_set_reconciliation :
    (∀ (plan state : DLModel) (readL : List DLDest),
      ((dlUpdate plan state readL).createCall = none ↔
        missingDestinations plan.destinations readL = []) ∧
      (dlUpdate plan state readL).createCall.getD [] =
        missingDestinations plan.destinations readL) ∧
    (∀ (planL readL : List DLDest) (x : DLCreate),
      x ∈ missingDestinations planL readL ↔
      ∃ p ∈ planL, p.destination = x.destination ∧ p.comment = x.comment ∧
        ∀ q ∈ readL, q.destination ≠ x.destination) ∧
    (∀ (readL planL : List DLDest) (q : DLDest),
      q ∈ extraDestinations readL planL ↔
      q ∈ readL ∧ ∀ p ∈ planL, q.destination ≠ p.destination) ∧
    (∀ (plan state : DLModel) (readL : List DLDest) (i : Int),
      (dlUpdate plan state readL).errorDiag = false →
      (i ∈ (dlUpdate plan state readL).deleteCall.getD [] ↔
        ∃ q ∈ extraDestinations readL plan.destinations, parseId q.id = some i)) ∧
    (∀ (plan state : DLModel) (readL : List DLDest),
      ((dlUpdate plan state readL).deleteCall = none ∧
        (dlUpdate plan state readL).errorDiag = false) ↔
      extraDestinations readL plan.destinations = []) ∧
    (∀ (plan state : DLModel) (readL : List DLDest),
      (∀ s, s ∈ plan.destinations.map DLDest.destination ↔
        s ∈ readL.map DLDest.destination) →
      (dlUpdate plan state readL).createCall = none ∧
      (dlUpdate plan state readL).deleteCall = none ∧
      (dlUpdate plan state readL).errorDiag = false) := by
  have hcreate : ∀ (plan state : DLModel) (readL : List DLDest),
      ((dlUpdate plan state readL).createCall = none ↔
        missingDestinations plan.destinations readL = []) ∧
      (dlUpdate plan state readL).createCall.getD [] =
        missingDestinations plan.destinations readL := by
    intro plan state readL
    rw [dlUpdate_createCall]
    by_cases hm : (missingDestinations plan.destinations readL).isEmpty
    · rw [List.isEmpty_iff] at hm
      simp [hm]
    · simp only [Bool.not_eq_true, List.isEmpty_eq_false_iff_exists_mem] at hm
      obtain ⟨a, ha⟩ := hm
      have hne : missingDestinations plan.destinations readL ≠ [] := by
        intro hcontra
        rw [hcontra] at ha
        exact List.not_mem_nil a ha
      have hb : (missingDestinations plan.destinations readL).isEmpty = false := by
        rw [← Bool.not_eq_true, List.isEmpty_iff]
        exact hne
      simp [hb, hne]
  have hdelpair : ∀ (plan state : DLModel) (readL : List DLDest),
      ((dlUpdate plan state readL).deleteCall, (dlUpdate plan state readL).errorDiag) =
        (if (extraDestinations readL plan.destinations).isEmpty then (none, false)
         else
          match parseIds (extraDestinations readL plan.destinations) with
          | none => (none, true)
          | some ids => (some ids, false)) :=
    dlUpdate_deleteCall_errorDiag
  have hdel : ∀ (plan state : DLModel) (readL : List DLDest) (i : Int),
      (dlUpdate plan state readL).errorDiag = false →
      (i ∈ (dlUpdate plan state readL).deleteCall.getD [] ↔
        ∃ q ∈ extraDestinations readL plan.destinations, parseId q.id = some i) := by
    intro plan state readL i hdiag
    have hp := hdelpair plan state readL
    by_cases hemp : (extraDestinations readL plan.destinations).isEmpty
    · rw [if_pos hemp] at hp
      rw [List.isEmpty_iff] at hemp
      have : (dlUpdate plan state readL).deleteCall = none := by
        have := congrArg Prod.fst hp
        simpa using this
      rw [this]
      simp [hemp]
    · rw [if_neg hemp] at hp
      cases hpi : parseIds (extraDestinations readL plan.destinations) with
      | none =>
        rw [hpi] at hp
        have : (dlUpdate plan state readL).errorDiag = true := by
          have := congrArg Prod.snd hp
          simpa using this
        rw [this] at hdiag
        exact absurd hdiag (by simp)
      | some ids =>
        rw [hpi] at hp
        have : (dlUpdate plan state readL).deleteCall = some ids := by
          have := congrArg Prod.fst hp
          simpa using this
        rw [this]
        simpa using parseIds_mem hpi i
  have hdelnone : ∀ (plan state : DLModel) (readL : List DLDest),
      ((dlUpdate plan state readL).deleteCall = none ∧
        (dlUpdate plan state readL).errorDiag = false) ↔
      extraDestinations readL plan.destinations = [] := by
    intro plan state readL
    have hp := hdelpair plan state readL
    by_cases hemp : (extraDestinations readL plan.destinations).isEmpty
    · rw [if_pos hemp] at hp
      rw [List.isEmpty_iff] at hemp
      have h1 : (dlUpdate plan state readL).deleteCall = none := by
        have := congrArg Prod.fst hp
        simpa using this
      have h2 : (dlUpdate plan state readL).errorDiag = false := by
        have := congrArg Prod.snd hp
        simpa using this
      simp [h1, h2, hemp]
    · rw [if_neg hemp] at hp
      have hne : extraDestinations readL plan.destinations ≠ [] := by
        intro hcontra
        exact hemp (by simp [hcontra])
      cases hpi : parseIds (extraDestinations readL plan.destinations) with
      | none =>
        rw [hpi] at hp
        have h2 : (dlUpdate plan state readL).errorDiag = true := by
          have := congrArg Prod.snd hp
          simpa using this
        simp [h2, hne]
      | some ids =>
        rw [hpi] at hp
        have h1 : (dlUpdate plan state readL).deleteCall = some ids := by
          have := congrArg Prod.fst hp
          simpa using this
        simp [h1, hne]
  refine ⟨hcreate, fun _ _ _ => mem_missingDestinations,
    fun _ _ _ => mem_extraDestinations, hdel, hdelnone, ?_⟩
  intro plan state readL hset
  have hmiss : missingDestinations plan.destinations readL = [] := by
    rw [List.eq_nil_iff_forall_not_mem]
    intro x hx
    rw [mem_missingDestinations] at hx
    obtain ⟨p, hp, hdest, -, hnone⟩ := hx
    have hmem : x.destination ∈ readL.map DLDest.destination := by
      rw [← hset]
      rw [List.mem_map]
      exact ⟨p, hp, hdest⟩
    obtain ⟨q, hq, hqd⟩ := List.mem_map.mp hmem
    exact hnone q hq hqd
  have hextra : extraDestinations readL plan.destinations = [] := by
    rw [List.eq_nil_iff_forall_not_mem]
    intro q hq
    rw [mem_extraDestinations] at hq
    obtain ⟨hq, hnone⟩ := hq
    have hmem : q.destination ∈ plan.destinations.map DLDest.destination := by
      rw [hset]
      rw [List.mem_map]
      exact ⟨q, hq, rfl⟩
    obtain ⟨p, hp, hpd⟩ := List.mem_map.mp hmem
    exact hnone p hp hpd.symm
  refine ⟨(hcreate plan state readL).1.mpr hmiss, ?_, ?_⟩
  · exact ((hdelnone plan state readL).mpr hextra).1
  · exact ((hdelnone plan state readL).mpr hextra).2

/-- Concrete destination-list plan for the C2 witness. -/
def dlWitnessPlan : DLModel := ⟨1, "listA", [⟨"", "a.com", "c", "DOMAIN"⟩]⟩

/-- Concrete prior destination-list state for the C2 witness. -/
def dlWitnessState : DLModel := ⟨1, "listA", []⟩

/-- Concrete observed destinations for the C2 witness. -/
def dlWitnessRead : List DLDest :=
  [⟨"7", "b.com", "", "DOMAIN"⟩, ⟨"8", "a.com", "", "DOMAIN"⟩]

/-- Concrete observed destinations equal (as a string set) to the C2
witness plan. -/
def dlWitnessReadEq : List DLDest := [⟨"8", "a.com", "", "DOMAIN"⟩]

/-- Claim C2, witness: at concrete inputs, the delete call holds exactly
the parsed extraneous id, and an Update whose planned and observed string
sets agree issues neither call. -/
theorem dlUpdate_set_reconciliation_witness :
    ((7 : Int) ∈ (dlUpdate dlWitnessPlan dlWitnessState dlWitnessRead).deleteCall.getD [] ↔
      ∃ q ∈ extraDestinations dlWitnessRead dlWitnessPlan.destinations,
        parseId q.id = some 7) ∧
    (dlUpdate dlWitnessPlan dlWitnessState dlWitnessReadEq).createCall = none ∧
    (dlUpdate dlWitnessPlan dlWitnessState dlWitnessReadEq).deleteCall = none ∧
    (dlUpdate dlWitnessPlan dlWitnessState dlWitnessReadEq).errorDiag = false := by
  have hset : ∀ s, s ∈ dlWitnessPlan.destinations.map DLDest.destination ↔
      s ∈ dlWitnessReadEq.map DLDest.destination := by
    intro s
    simp [dlWitnessPlan, dlWitnessReadEq]
  exact ⟨dlUpdate_set_reconciliation.2.2.2.1 dlWitnessPlan dlWitnessState
      dlWitnessRead 7 (by decide),
    dlUpdate_set_reconciliation.2.2.2.2.2 dlWitnessPlan dlWitnessState
      dlWitnessReadEq hset⟩

/-- Claim C3, counterexample: an HTTP 404 response from the API does not
always remove the resource from state.  In the destination-list Read a
failing 404 response with an empty body is surfaced as an error diagnostic,
while a 200 response whose body carries the not-found marker IS removed
from state (the handler keys on the body, not the status); and in the
global-settings Read a failing 404 response is likewise surfaced as an
error diagnostic and the resource stays in state. -/
theorem read404_claim_false_for_destination_list :
    dlReadEff true ⟨404, ""⟩ = .errorDiag ∧
    dlReadEff true ⟨200, "resp \"statusCode\":404,\"error\":\"Not Found\""⟩ =
      .removeFromState ∧
    gsReadEff ⟨some ⟨404, ""⟩, true⟩ = .errorDiag := by
  decide

/-- Claim C3, amended: the Reads of the access-policy, network-tunnel-group
and connector-agent resources remove the resource from state (with no
error diagnostic) on any response with status 404; the private-resource
Read does so on any failing response with status 404; the destination-list
Read instead removes from state on a failing response exactly when the body
contains the marker "statusCode":404,"error":"Not Found", irrespective of
the status code; the global-settings Read never removes from state and
surfaces every failing response, a 404 included, as an error diagnostic;
the connector-agent retry loop ends immediately on the removal with no
diagnostic. -/
theorem read404_removes_from_state :
    (∀ (b : String) (e : Bool), apReadEff ⟨some ⟨404, b⟩, e⟩ = .removeFromState) ∧
    (∀ (b : String) (e : Bool), ntgReadEff ⟨some ⟨404, b⟩, e⟩ = .removeFromState) ∧
    (∀ b : String, prReadEff ⟨some ⟨404, b⟩, true⟩ = .removeFromState) ∧
    (∀ (b : String) (e : Bool), connReadStep ⟨some ⟨404, b⟩, e⟩ = .removed) ∧
    (∀ (b : String) (e : Bool) (n : Nat) (rest : List APIResult),
      runConnRead (n + 1) (⟨some ⟨404, b⟩, e⟩ :: rest) = .removed) ∧
    (∀ r : HTTPResp,
      dlReadEff true r = .removeFromState ↔ strContains r.body dlNotFoundMarker = true) ∧
    (∀ a : APIResult, gsReadEff a ≠ .removeFromState) ∧
    (∀ r : Option HTTPResp, gsReadEff ⟨r, true⟩ = .errorDiag) := by
  refine ⟨?_, ?_, ?_, ?_, ?_, ?_, ?_, ?_⟩
  · intro b e
    rfl
  · intro b e
    rfl
  · intro b
    rfl
  · intro b e
    rfl
  · intro b e n rest
    simp [runConnRead, connReadStep]
  · intro r
    simp only [dlReadEff, if_true]
    split <;> rename_i h <;> simp_all
  · intro a
    simp only [gsReadEff]
    split <;> simp
  · intro r
    rfl

/-- Claim C4: for every resource Delete, an HTTP 404 response is treated as
the resource already being gone: the handler reports success with no error
diagnostic, and in the retry-based handlers (access policy, connector
agent) the loop ends at once regardless of any further responses, so no
retry or further API call happens. -/
theorem delete404_already_gone :
    (∀ (b : String) (e : Bool) (n : Nat) (rest : List APIResult),
      apDeleteStep ⟨some ⟨404, b⟩, e⟩ = .done ∧
      runRetry apDeleteStep (n + 1) (⟨some ⟨404, b⟩, e⟩ :: rest) = .ok) ∧
    (∀ (b : String) (e : Bool), prDeleteEff e ⟨404, b⟩ = .success) ∧
    (∀ (b : String) (e : Bool), ntgDeleteEff ⟨some ⟨404, b⟩, e⟩ = .success) ∧
    (∀ (b : String) (e : Bool), dlDeleteEff e ⟨404, b⟩ = .success) ∧
    (∀ (b : String) (e : Bool) (n : Nat) (rest : List APIResult),
      connDeleteStep ⟨some ⟨404, b⟩, e⟩ = .done ∧
      runRetry connDeleteStep (n + 1) (⟨some ⟨404, b⟩, e⟩ :: rest) = .ok) := by
  refine ⟨?_, ?_, ?_, ?_, ?_⟩
  · intro b e n rest
    exact ⟨rfl, by simp [runRetry, apDeleteStep]⟩
  · intro b e
    rfl
  · intro b e
    rfl
  · intro b e
    rfl
  · intro b e n rest
    exact ⟨rfl, by simp [runRetry, connDeleteStep]⟩

/-- Claim C5: when the plan agrees with the prior state on every compared
field, the Update handlers of the access-policy and private-resource
resources issue no write call to the API (whatever the API would have
answered) and set the Terraform state to the plan, with no diagnostic. -/
theorem update_noop_is_idempotent :
    (∀ (plan state : APModel) (e : Bool),
      plan.name = state.name → plan.description = state.description →
      plan.enabled = state.enabled → plan.priority = state.priority →
      plan.sourceIds = state.sourceIds → plan.sourceTypes = state.sourceTypes →
      plan.privateDestinationTypes = state.privateDestinationTypes →
      plan.publicDestinationTypes = state.publicDestinationTypes →
      plan.privateResourceIds = state.privateResourceIds →
      plan.destinationListIds = state.destinationListIds →
      plan.logLevel = state.logLevel →
      plan.clientPostureProfileId = state.clientPostureProfileId →
      plan.trafficType = state.trafficType →
      apUpdate plan state e = ⟨none, some plan, false⟩) ∧
    (∀ (plan state : PRModel) (e : Bool),
      plan.name = state.name → plan.description = state.description →
      plan.accessTypes = state.accessTypes → plan.addresses = state.addresses →
      plan.certificateId = state.certificateId →
      prUpdate plan state e = ⟨none, some plan, false⟩) := by
  constructor
  · intro plan state e h1 h2 h3 h4 h5 h6 h7 h8 h9 h10 h11 h12 h13
    have hch : hasChanges plan state = false := by
      simp [hasChanges, h1, h2, h3, h4, h5, h6, h7, h8, h9, h10, h11, h12, h13]
    simp [apUpdate, hch]
  · intro plan state e h1 h2 h3 h4 h5
    have hch : hasResourceChanges plan state = false := by
      simp [hasResourceChanges, h1, h2, h3, h4, h5]
    simp [prUpdate, hch]

/-- Concrete access-policy model for witnesses. -/
def apWitnessModel : APModel :=
  ⟨5, "pol", "allow", ∅, ∅, "d", true, "LOG_ALL", 1, none, ∅, ∅, ∅, ∅,
    "PRIVATE_NETWORK"⟩

/-- Concrete private-resource model for the C5 witness. -/
def prWitnessModel : PRModel := ⟨"9", "res", ∅, ∅, "d", none, none⟩

/-- Claim C5, witness: at a concrete plan equal to its state, both Update
handlers issue no call and write the plan back. -/
theorem update_noop_is_idempotent_witness :
    apUpdate apWitnessModel apWitnessModel true = ⟨none, some apWitnessModel, false⟩ ∧
    prUpdate prWitnessModel prWitnessModel true = ⟨none, some prWitnessModel, false⟩ :=
  ⟨update_noop_is_idempotent.1 apWitnessModel apWitnessModel true
      rfl rfl rfl rfl rfl rfl rfl rfl rfl rfl rfl rfl rfl,
    update_noop_is_idempotent.2 prWitnessModel prWitnessModel true
      rfl rfl rfl rfl rfl⟩

/-- Claim C8: Delete of the global-settings resource issues no API write at
all, whatever the stored state was, and reports an error only when reading
the prior Terraform state itself failed. -/
theorem gsDelete_no_api_calls :
    ∀ stateRead : Option GSModel,
      (gsDelete stateRead).1 = [] ∧
      ((gsDelete stateRead).2 = true ↔ stateRead = none) := by
  intro st
  cases st <;> simp [gsDelete]

/-- Claim C9: hasChanges does not compare the Action field: whenever plan
and state agree on the thirteen compared fields but differ in action,
hasChanges is false, so access-policy Update issues no API call and still
writes the plan (with the new action) to Terraform state. -/
theorem hasChanges_ignores_action :
    ∀ (plan state : APModel) (e : Bool),
      plan.name = state.name → plan.description = state.description →
      plan.enabled = state.enabled → plan.priority = state.priority →
      plan.sourceIds = state.sourceIds → plan.sourceTypes = state.sourceTypes →
      plan.privateDestinationTypes = state.privateDestinationTypes →
      plan.publicDestinationTypes = state.publicDestinationTypes →
      plan.privateResourceIds = state.privateResourceIds →
      plan.destinationListIds = state.destinationListIds →
      plan.logLevel = state.logLevel →
      plan.clientPostureProfileId = state.clientPostureProfileId →
      plan.trafficType = state.trafficType →
      plan.action ≠ state.action →
      hasChanges plan state = false ∧
      apUpdate plan state e = ⟨none, some plan, false⟩ := by
  intro plan state e h1 h2 h3 h4 h5 h6 h7 h8 h9 h10 h11 h12 h13 _hact
  have hch : hasChanges plan state = false := by
    simp [hasChanges, h1, h2, h3, h4, h5, h6, h7, h8, h9, h10, h11, h12, h13]
  exact ⟨hch, by simp [apUpdate, hch]⟩

/-- Concrete access-policy state differing from apWitnessModel only in the
action field. -/
def apWitnessModelBlock : APModel :=
  ⟨5, "pol", "block", ∅, ∅, "d", true, "LOG_ALL", 1, none, ∅, ∅, ∅, ∅,
    "PRIVATE_NETWORK"⟩

/-- Claim C9, witness: flipping only the action from block to allow is
reported as no change and no API call is issued. -/
theorem hasChanges_ignores_action_witness :
    hasChanges apWitnessModel apWitnessModelBlock = false ∧
    apUpdate apWitnessModel apWitnessModelBlock false =
      ⟨none, some apWitnessModel, false⟩ :=
  hasChanges_ignores_action apWitnessModel apWitnessModelBlock false
    rfl rfl rfl rfl rfl rfl rfl rfl rfl rfl rfl rfl rfl (by decide)

/-- Claim C10: compareStringSlicesAsSets accepts every permutation and
rejects lists of different lengths, so a reordered network_cidrs list
produces no /routing patch in network-tunnel-group Update. -/
theorem compareStringSlicesAsSets_perm_spec :
    (∀ a b : List String, a.Perm b → compareStringSlicesAsSets a b = true) ∧
    (∀ a b : List String, a.length ≠ b.length →
      compareStringSlicesAsSets a b = false) ∧
    (∀ plan state : NTGModel, state.networkCidrs.Perm plan.networkCidrs →
      ∀ op ∈ ntgPatchOps plan state, op.path ≠ "/routing") := by
  have hperm : ∀ a b : List String, a.Perm b →
      compareStringSlicesAsSets a b = true := by
    intro a b hp
    have hlen : (a.length != b.length) = false := by
      simp [hp.length_eq]
    simp only [compareStringSlicesAsSets, hlen, Bool.false_eq_true, if_false,
      List.all_eq_true, List.any_eq_true, beq_iff_eq]
    intro x hx
    exact ⟨x, hp.subset hx, rfl⟩
  refine ⟨hperm, ?_, ?_⟩
  · intro a b hne
    have hlen : (a.length != b.length) = true := by
      simpa using hne
    simp [compareStringSlicesAsSets, hlen]
  · intro plan state hp op hop hpath
    have hc : compareStringSlicesAsSets state.networkCidrs plan.networkCidrs = true :=
      hperm _ _ hp
    simp only [ntgPatchOps, hc, if_true, List.append_nil, List.mem_append] at hop
    rcases hop with hop | hop <;>
      · revert hop
        split <;> intro hop <;> simp_all

/-- Claim C10, witness: a two-element reordering is accepted, a length
mismatch is rejected, and with reordered CIDRs the only patch produced (a
name change) does not touch /routing. -/
theorem compareStringSlicesAsSets_perm_spec_witness :
    compareStringSlicesAsSets ["a", "b"] ["b", "a"] = true ∧
    compareStringSlicesAsSets [] ["a"] = false ∧
    (PatchOp.mk "replace" "/name" (.str "n2")).path ≠ "/routing" := by
  refine ⟨compareStringSlicesAsSets_perm_spec.1 ["a", "b"] ["b", "a"] ?_,
    compareStringSlicesAsSets_perm_spec.2.1 [] ["a"] (by decide),
    compareStringSlicesAsSets_perm_spec.2.2
      ⟨3, ["b", "a"], "n2", "r", "k", "d"⟩ ⟨3, ["a", "b"], "n", "r", "k", "d"⟩
      ?_ (PatchOp.mk "replace" "/name" (.str "n2")) ?_⟩
  · decide
  · decide
  · decide

/-- Concrete tunnel-group plan with a duplicated CIDR for the C6
counterexample. -/
def ntgDupPlan : NTGModel :=
  ⟨1, ["10.0.0.0/8", "10.0.0.0/8"], "ntg", "eu", "key", "ASA"⟩

/-- Concrete tunnel-group state with the same CIDR string set as ntgDupPlan
but no duplicate. -/
def ntgDupState : NTGModel := ⟨1, ["10.0.0.0/8"], "ntg", "eu", "key", "ASA"⟩

/-- Claim C6, counterexample: /routing is not patched ONLY when the
CIDR lists differ as sets.  With plan CIDRs [10.0.0.0/8, 10.0.0.0/8] and
state CIDRs [10.0.0.0/8] the two string SETS are equal, names and keys are
equal, yet Update produces a /routing replace patch, because
compareStringSlicesAsSets compares lengths, not sets. -/
theorem ntgRouting_claim_false_on_duplicates :
    ntgDupPlan.networkCidrs.toFinset = ntgDupState.networkCidrs.toFinset ∧
    ntgDupPlan.name = ntgDupState.name ∧
    ntgDupPlan.presharedKey = ntgDupState.presharedKey ∧
    (ntgPatchOps ntgDupPlan ntgDupState).map PatchOp.path = ["/routing"] := by
  decide

/-- Claim C6, amended: in network-tunnel-group Update the PATCH request
contains a replace of /name iff the planned name differs, of /passphrase
iff the planned preshared key differs, and of /routing iff
compareStringSlicesAsSets(state CIDRs, plan CIDRs) fails - that is, the
lists have different lengths or some state CIDR occurs nowhere in the plan
(NOT plain set equality, which differs on duplicated elements); when none
of the three comparisons report a difference no API call is made; and every
operation Update ever produces is a replace of one of these three paths. -/
theorem ntgUpdate_patch_paths :
    ∀ plan state : NTGModel,
      ("/name" ∈ (ntgPatchOps plan state).map PatchOp.path ↔
        plan.name ≠ state.name) ∧
      ("/passphrase" ∈ (ntgPatchOps plan state).map PatchOp.path ↔
        plan.presharedKey ≠ state.presharedKey) ∧
      ("/routing" ∈ (ntgPatchOps plan state).map PatchOp.path ↔
        compareStringSlicesAsSets state.networkCidrs plan.networkCidrs = false) ∧
      (plan.name = state.name → plan.presharedKey = state.presharedKey →
        compareStringSlicesAsSets state.networkCidrs plan.networkCidrs = true →
        ntgUpdateCall plan state = none) ∧
      (∀ op ∈ ntgPatchOps plan state,
        op.op = "replace" ∧
        (op.path = "/name" ∨ op.path = "/passphrase" ∨ op.path = "/routing")) := by
  intro plan state
  by_cases h1 : plan.name = state.name <;>
    by_cases h2 : plan.presharedKey = state.presharedKey <;>
    by_cases h3 : compareStringSlicesAsSets state.networkCidrs plan.networkCidrs = true <;>
    simp_all [ntgPatchOps, ntgUpdateCall, Bool.not_eq_true]

/-- Claim C6, witness: with nothing differing no call is made, and a
name-only change produces a replace op on an allowed path. -/
theorem ntgUpdate_patch_paths_witness :
    ntgUpdateCall ⟨1, ["x"], "n", "r", "k", "d"⟩ ⟨1, ["x"], "n", "r", "k", "d"⟩ = none ∧
    ((PatchOp.mk "replace" "/name" (.str "n2")).op = "replace" ∧
      ((PatchOp.mk "replace" "/name" (.str "n2")).path = "/name" ∨
       (PatchOp.mk "replace" "/name" (.str "n2")).path = "/passphrase" ∨
       (PatchOp.mk "replace" "/name" (.str "n2")).path = "/routing")) :=
  ⟨(ntgUpdate_patch_paths ⟨1, ["x"], "n", "r", "k", "d"⟩
      ⟨1, ["x"], "n", "r", "k", "d"⟩).2.2.2.1 rfl rfl (by decide),
   (ntgUpdate_patch_paths ⟨1, ["x"], "n2", "r", "k", "d"⟩
      ⟨1, ["x"], "n", "r", "k", "d"⟩).2.2.2.2
      (PatchOp.mk "replace" "/name" (.str "n2")) (by decide)⟩

/-- The decryption block never writes or alters the IPS-profile field. -/
theorem gsPutDecryption_ips_invariant (current plan : GSModel) :
    (gsPutDecryption current plan).2.1.globalIPSProfileId =
      current.globalIPSProfileId ∧
    (gsPutDecryption current plan).2.2.globalIPSProfileId =
      plan.globalIPSProfileId ∧
    ∀ i : Int, GSWrite.ipsProfile i ∉ (gsPutDecryption current plan).1 := by
  simp only [gsPutDecryption]
  split
  · simp
  · split <;> simp

/-- The IPS-profile block never writes or alters the decryption field. -/
theorem gsPutIps_enable_invariant (current plan : GSModel) :
    (gsPutIps current plan).2.1.enableGlobalDecryption =
      current.enableGlobalDecryption ∧
    (gsPutIps current plan).2.2.enableGlobalDecryption =
      plan.enableGlobalDecryption ∧
    ∀ b : Bool, GSWrite.decryption b ∉ (gsPutIps current plan).1 := by
  simp only [gsPutIps]
  split
  · simp
  · split <;> simp

/-- Membership of a decryption write in the decryption block's output. -/
theorem mem_gsPutDecryption (current plan : GSModel) (b : Bool) :
    GSWrite.decryption b ∈ (gsPutDecryption current plan).1 ↔
      (plan.enableGlobalDecryption.isUnknown = false ∧
       plan.enableGlobalDecryption.valueOr false ≠
         current.enableGlobalDecryption.valueOr false ∧
       b = plan.enableGlobalDecryption.valueOr false) := by
  simp only [gsPutDecryption]
  split
  · rename_i h
    simp only [Bool.and_eq_true, Bool.not_eq_true', bne_iff_ne, ne_eq] at h
    simp [h.1, h.2]
  · rename_i h
    simp only [Bool.and_eq_true, Bool.not_eq_true', bne_iff_ne, ne_eq,
      not_and_or] at h
    split <;> rename_i hu <;> simp_all

/-- Membership of an IPS-profile write in the IPS block's output. -/
theorem mem_gsPutIps (current plan : GSModel) (i : Int) :
    GSWrite.ipsProfile i ∈ (gsPutIps current plan).1 ↔
      (plan.globalIPSProfileId.isUnknown = false ∧
       plan.globalIPSProfileId.valueOr 0 ≠
         current.globalIPSProfileId.valueOr 0 ∧
       i = plan.globalIPSProfileId.valueOr 0) := by
  simp only [gsPutIps]
  split
  · rename_i h
    simp only [Bool.and_eq_true, Bool.not_eq_true', bne_iff_ne, ne_eq] at h
    simp [h.1, h.2]
  · rename_i h
    simp only [Bool.and_eq_true, Bool.not_eq_true', bne_iff_ne, ne_eq,
      not_and_or] at h
    split <;> rename_i hu <;> simp_all

/-- The decryption block on an unknown plan value: no write, current kept,
plan field filled from current. -/
theorem gsPutDecryption_unknown (current plan : GSModel)
    (h : plan.enableGlobalDecryption.isUnknown = true) :
    gsPutDecryption current plan =
      ([], current,
        { plan with enableGlobalDecryption := current.enableGlobalDecryption }) := by
  simp [gsPutDecryption, h]

/-- The IPS block on an unknown plan value: no write, current kept, plan
field filled from current. -/
theorem gsPutIps_unknown (current plan : GSModel)
    (h : plan.globalIPSProfileId.isUnknown = true) :
    gsPutIps current plan =
      ([], current,
        { plan with globalIPSProfileId := current.globalIPSProfileId }) := by
  simp [gsPutIps, h]

/-- The decryption block on a known, unchanged plan value: nothing happens. -/
theorem gsPutDecryption_same (current plan : GSModel)
    (h1 : plan.enableGlobalDecryption.isUnknown = false)
    (h2 : plan.enableGlobalDecryption.valueOr false =
      current.enableGlobalDecryption.valueOr false) :
    gsPutDecryption current plan = ([], current, plan) := by
  simp [gsPutDecryption, h1, h2]

/-- The IPS block on a known, unchanged plan value: nothing happens. -/
theorem gsPutIps_same (current plan : GSModel)
    (h1 : plan.globalIPSProfileId.isUnknown = false)
    (h2 : plan.globalIPSProfileId.valueOr 0 =
      current.globalIPSProfileId.valueOr 0) :
    gsPutIps current plan = ([], current, plan) := by
  simp [gsPutIps, h1, h2]

/-- Claim C7: PutState writes each of the two global settings exactly when
its planned value is not unknown and differs from the fetched current
value; an unknown planned value is filled into the plan from the current
value with no write for it; and a setting whose planned value equals the
current value is left untouched in the current model. -/
theorem putState_partial_update :
    ∀ current plan : GSModel,
      (∀ b : Bool, GSWrite.decryption b ∈ (putState current plan).1 ↔
        (plan.enableGlobalDecryption.isUnknown = false ∧
         plan.enableGlobalDecryption.valueOr false ≠
           current.enableGlobalDecryption.valueOr false ∧
         b = plan.enableGlobalDecryption.valueOr false)) ∧
      (∀ i : Int, GSWrite.ipsProfile i ∈ (putState current plan).1 ↔
        (plan.globalIPSProfileId.isUnknown = false ∧
         plan.globalIPSProfileId.valueOr 0 ≠
           current.globalIPSProfileId.valueOr 0 ∧
         i = plan.globalIPSProfileId.valueOr 0)) ∧
      (plan.enableGlobalDecryption.isUnknown = true →
        (putState current plan).2.2.enableGlobalDecryption =
          current.enableGlobalDecryption) ∧
      (plan.globalIPSProfileId.isUnknown = true →
        (putState current plan).2.2.globalIPSProfileId =
          current.globalIPSProfileId) ∧
      (plan.enableGlobalDecryption.isUnknown = false →
        plan.enableGlobalDecryption.valueOr false =
          current.enableGlobalDecryption.valueOr false →
        (putState current plan).2.1.enableGlobalDecryption =
          current.enableGlobalDecryption) ∧
      (plan.globalIPSProfileId.isUnknown = false →
        plan.globalIPSProfileId.valueOr 0 =
          current.globalIPSProfileId.valueOr 0 →
        (putState current plan).2.1.globalIPSProfileId =
          current.globalIPSProfileId) := by
  intro current plan
  have hinv1 := gsPutDecryption_ips_invariant current plan
  have hinv2 := gsPutIps_enable_invariant
    (gsPutDecryption current plan).2.1 (gsPutDecryption current plan).2.2
  refine ⟨?_, ?_, ?_, ?_, ?_, ?_⟩
  · intro b
    simp only [putState, List.mem_append]
    rw [mem_gsPutDecryption]
    constructor
    · rintro (h | h)
      · exact h
      · exact absurd h (hinv2.2.2 b)
    · exact Or.inl
  · intro i
    simp only [putState, List.mem_append]
    rw [mem_gsPutIps]
    rw [hinv1.1, hinv1.2.1]
    constructor
    · rintro (h | h)
      · exact absurd h (hinv1.2.2 i)
      · exact h
    · exact Or.inr
  · intro h
    simp only [putState]
    rw [hinv2.2.1]
    rw [gsPutDecryption_unknown current plan h]
  · intro h
    simp only [putState]
    have hu : (gsPutDecryption current plan).2.2.globalIPSProfileId.isUnknown
        = true := by
      rw [hinv1.2.1]
      exact h
    rw [gsPutIps_unknown _ _ hu]
    exact hinv1.1
  · intro h1 h2
    simp only [putState]
    rw [hinv2.1]
    rw [gsPutDecryption_same current plan h1 h2]
  · intro h1 h2
    simp only [putState]
    have hk : (gsPutDecryption current plan).2.2.globalIPSProfileId.isUnknown
        = false := by
      rw [hinv1.2.1]
      exact h1
    have he : (gsPutDecryption current plan).2.2.globalIPSProfileId.valueOr 0 =
        (gsPutDecryption current plan).2.1.globalIPSProfileId.valueOr 0 := by
      rw [hinv1.1, hinv1.2.1, h2]
    rw [gsPutIps_same _ _ hk he]
    exact hinv1.1

/-- Claim C7, witness: with an unknown planned decryption flag and a
changed planned IPS profile id, the plan is filled from the current
decryption value and exactly the IPS write fires; with an unchanged known
profile id, the current model is left alone. -/
theorem putState_partial_update_witness :
    ((putState ⟨.val true, .val 5⟩ ⟨.unknown, .val 7⟩).2.2.enableGlobalDecryption =
      TFVal.val true) ∧
    (GSWrite.ipsProfile 7 ∈ (putState ⟨.val true, .val 5⟩ ⟨.unknown, .val 7⟩).1 ↔
      ((TFVal.val (7 : Int)).isUnknown = false ∧
       (TFVal.val (7 : Int)).valueOr 0 ≠ (TFVal.val (5 : Int)).valueOr 0 ∧
       (7 : Int) = (TFVal.val (7 : Int)).valueOr 0)) ∧
    ((putState ⟨.val true, .val 5⟩ ⟨.val false, .val 5⟩).2.1.globalIPSProfileId =
      TFVal.val 5) :=
  ⟨(putState_partial_update ⟨.val true, .val 5⟩ ⟨.unknown, .val 7⟩).2.2.1 rfl,
   (putState_partial_update ⟨.val true, .val 5⟩ ⟨.unknown, .val 7⟩).2.1 7,
   (putState_partial_update ⟨.val true, .val 5⟩ ⟨.val false, .val 5⟩).2.2.2.2.2
      rfl rfl⟩

end SecureAccess
